import Mathlib

/-!
Verification development for the VectorClock e-paper display driver
(src/epaper-display.py).  The Python code is shallowly embedded below:
pure image-processing routines become Lean functions over integer pixel
grids, and the stateful renderer / art-cache code becomes explicit
state-passing functions.  Machine floats appear in the source only in
places where the computation is exact in IEEE double precision
(error*k/16 sums of small integers, (index+1)/17*255 which is exactly
15*(index+1), altitude/30.48 far from integer boundaries at the inputs
considered); those spots are embedded with exact integer / rational
arithmetic, with comments at each spot.
-/

/-! ## Basic helpers -/

/-- Clamp an integer intensity into the byte range, the
`max(0, min(255, v))` idiom used throughout the dithering code. -/
def clamp255 (v : ℤ) : ℤ := max 0 (min 255 v)

/-- Python `int()` applied to an exact fraction `n / 16`: truncation
toward zero.  In the source, `int(pixel + error * k / 16)` operates on a
float that is exactly the dyadic rational `(16*pixel + error*k)/16`, so
the embedding divides the scaled integer numerator by 16 with
truncation toward zero (`Int.tdiv`). -/
def truncDiv16 (n : ℤ) : ℤ := Int.tdiv n 16

/-! ## Pixel grids

A grayscale image buffer (`img.load()` in PIL) is embedded as a function
from coordinates to integer intensity; `Grid.set` is a single in-place
pixel store `pixels[x, y] = v`. -/

abbrev Grid := ℕ → ℕ → ℤ

def Grid.set (g : Grid) (x y : ℕ) (v : ℤ) : Grid :=
  fun a b => if a = x ∧ b = y then v else g a b

/-- Row-major raster scan: `for y in range(height): for x in range(width)`,
threading the mutable pixel buffer through each per-pixel step. -/
def rasterFold (w h : ℕ) (step : ℕ → ℕ → Grid → Grid) (g : Grid) : Grid :=
  (List.range h).foldl (fun g y => (List.range w).foldl (fun g x => step x y g) g) g

/-- Quantize an intensity with threshold 127:
`new_pixel = 255 if old_pixel > 127 else 0`. -/
def quantize (v : ℤ) : ℤ := if v > 127 then 255 else 0

/-! ## Conversion between list images and grids

The list form (rows of intensities) is used to state concrete
counterexamples; `gridOfRows`/`rowsOfGrid` mediate.  PIL images are
rectangular, so the width is the length of the first row. -/

def gridOfRows (rows : List (List ℤ)) : Grid :=
  fun x y => (rows.getD y []).getD x 0

def rowsOfGrid (w h : ℕ) (g : Grid) : List (List ℤ) :=
  (List.range h).map fun y => (List.range w).map fun x => g x y

def imgWidth (rows : List (List ℤ)) : ℕ := (rows.headD []).length

/-! ## Floyd-Steinberg dithering, from `AlbumArtManager._dither_floyd_steinberg`
(src/epaper-display.py lines 245-271).  The per-pixel step mirrors the
Python loop body: quantize the pixel in place, then conditionally update
the four neighbors in source order, each update computing
`max(0, min(255, int(pixels[t] + error * k / 16)))` on the *current*
buffer contents.  The trailing `img.convert('1')` maps the 0/255 buffer
to 1-bit identically and is the identity in this embedding. -/

def fsStep (w h : ℕ) (x y : ℕ) (g : Grid) : Grid :=
  let old := g x y
  let np := quantize old
  let g := g.set x y np
  let e := old - np
  let g := if x + 1 < w then
      g.set (x+1) y (clamp255 (truncDiv16 (16 * g (x+1) y + e * 7))) else g
  let g := if y + 1 < h then
      let g := if x > 0 then
          g.set (x-1) (y+1) (clamp255 (truncDiv16 (16 * g (x-1) (y+1) + e * 3))) else g
      let g := g.set x (y+1) (clamp255 (truncDiv16 (16 * g x (y+1) + e * 5)))
      let g := if x + 1 < w then
          g.set (x+1) (y+1) (clamp255 (truncDiv16 (16 * g (x+1) (y+1) + e * 1))) else g
      g
    else g
  g

def ditherFloydG (w h : ℕ) (g : Grid) : Grid := rasterFold w h (fsStep w h) g

def dither_floyd_steinberg (rows : List (List ℤ)) : List (List ℤ) :=
  rowsOfGrid (imgWidth rows) rows.length
    (ditherFloydG (imgWidth rows) rows.length (gridOfRows rows))

/-! ## Atkinson dithering, from `AlbumArtManager._dither_atkinson`
(lines 273-303).  `error = (old_pixel - new_pixel) // 8` is Python floor
division, `Int.fdiv`; each of the six neighbor updates computes
`max(0, min(255, pixels[t] + error))` on the current buffer. -/

def atkErr (v : ℤ) : ℤ := Int.fdiv (v - quantize v) 8

def atkStep (w h : ℕ) (x y : ℕ) (g : Grid) : Grid :=
  let old := g x y
  let np := quantize old
  let g := g.set x y np
  let e := Int.fdiv (old - np) 8
  let g := if x + 1 < w then g.set (x+1) y (clamp255 (g (x+1) y + e)) else g
  let g := if x + 2 < w then g.set (x+2) y (clamp255 (g (x+2) y + e)) else g
  let g := if y + 1 < h then
      let g := if x > 0 then g.set (x-1) (y+1) (clamp255 (g (x-1) (y+1) + e)) else g
      let g := g.set x (y+1) (clamp255 (g x (y+1) + e))
      let g := if x + 1 < w then g.set (x+1) (y+1) (clamp255 (g (x+1) (y+1) + e)) else g
      g
    else g
  let g := if y + 2 < h then g.set x (y+2) (clamp255 (g x (y+2) + e)) else g
  g

def ditherAtkinsonG (w h : ℕ) (g : Grid) : Grid := rasterFold w h (atkStep w h) g

def dither_atkinson (rows : List (List ℤ)) : List (List ℤ) :=
  rowsOfGrid (imgWidth rows) rows.length
    (ditherAtkinsonG (imgWidth rows) rows.length (gridOfRows rows))

/-! ## Ordered (Bayer) dithering, from `AlbumArtManager._dither_ordered`
(lines 305-322) and the module-level `BAYER_MATRIX_4x4` (lines 125-130).
The float thresholds `((BAYER_MATRIX_4x4[y][x] + 1) / 17) * 255` are
exactly the integers `15 * (index + 1)` in IEEE double precision
(255 = 15 * 17), so the embedding uses the integer values. -/

def BAYER_MATRIX_4x4 : List (List ℤ) :=
  [[0,  8,  2, 10],
   [12, 4, 14,  6],
   [3, 11,  1,  9],
   [15, 7, 13,  5]]

def bayerThreshold (row col : ℕ) : ℤ :=
  15 * ((BAYER_MATRIX_4x4.getD row []).getD col 0 + 1)

def ordStep (x y : ℕ) (g : Grid) : Grid :=
  g.set x y (if g x y > bayerThreshold (y % 4) (x % 4) then 255 else 0)

def ditherOrderedG (w h : ℕ) (g : Grid) : Grid :=
  rasterFold w h (fun x y g => ordStep x y g) g

def dither_ordered (rows : List (List ℤ)) : List (List ℤ)  :=
  rowsOfGrid (imgWidth rows) rows.length
    (ditherOrderedG (imgWidth rows) rows.length (gridOfRows rows))

/-! ## Floyd-Steinberg as the claim describes it

Two further definitions follow the *words of claim C3* rather than the
source, to be compared with the source embedding.  Both enumerate the
error kernel flat, in the claim's order: right neighbor (x7/16),
next-row left diagonal (x3/16, skipped at the left edge), next-row same
column (x5/16), next-row right diagonal (x1/16, skipped at the right
edge).

`fsStepClaim` is the claim read literally: each propagated value
(the truncated fraction `error * k / 16`) is clamped to [0,255] *before*
being added to the neighbor's current intensity.

`fsStepAmended` is the amended reading that matches the code: the
neighbor's current intensity plus the propagated fraction is truncated
toward zero and the *sum* is clamped to [0,255]. -/

def fsStepClaim (w h : ℕ) (x y : ℕ) (g : Grid) : Grid :=
  let old := g x y
  let np := quantize old
  let e := old - np
  let g := g.set x y np
  let g := if x + 1 < w then
      g.set (x+1) y (g (x+1) y + clamp255 (truncDiv16 (e * 7))) else g
  let g := if x > 0 ∧ y + 1 < h then
      g.set (x-1) (y+1) (g (x-1) (y+1) + clamp255 (truncDiv16 (e * 3))) else g
  let g := if y + 1 < h then
      g.set x (y+1) (g x (y+1) + clamp255 (truncDiv16 (e * 5))) else g
  let g := if x + 1 < w ∧ y + 1 < h then
      g.set (x+1) (y+1) (g (x+1) (y+1) + clamp255 (truncDiv16 (e * 1))) else g
  g

def ditherFloydClaimG (w h : ℕ) (g : Grid) : Grid := rasterFold w h (fsStepClaim w h) g

def ditherFloydClaim (rows : List (List ℤ)) : List (List ℤ) :=
  rowsOfGrid (imgWidth rows) rows.length
    (ditherFloydClaimG (imgWidth rows) rows.length (gridOfRows rows))

def fsStepAmended (w h : ℕ) (x y : ℕ) (g : Grid) : Grid :=
  let old := g x y
  let np := quantize old
  let e := old - np
  let g := g.set x y np
  let g := if x + 1 < w then
      g.set (x+1) y (clamp255 (truncDiv16 (16 * g (x+1) y + e * 7))) else g
  let g := if x > 0 ∧ y + 1 < h then
      g.set (x-1) (y+1) (clamp255 (truncDiv16 (16 * g (x-1) (y+1) + e * 3))) else g
  let g := if y + 1 < h then
      g.set x (y+1) (clamp255 (truncDiv16 (16 * g x (y+1) + e * 5))) else g
  let g := if x + 1 < w ∧ y + 1 < h then
      g.set (x+1) (y+1) (clamp255 (truncDiv16 (16 * g (x+1) (y+1) + e * 1))) else g
  g

def ditherFloydAmendedG (w h : ℕ) (g : Grid) : Grid := rasterFold w h (fsStepAmended w h) g

/-! ## Atkinson as the claim describes it

`atkStepClaim` reads claim C4 literally: the error is the signed
difference integer-divided by 8 *discarding the remainder* (truncation
toward zero, `Int.tdiv`), and "that amount (x1, clamped to [0,255])" is
added to each in-bounds target.

`atkStepAmended` matches the code: floor division (`Int.fdiv`, Python
`//`), and each target is updated to the clamp of (current intensity +
error).  Targets in the claim's order: right, two right, next-row left
diagonal, next-row same column, next-row right diagonal, two-rows-down
same column. -/

def atkStepClaim (w h : ℕ) (x y : ℕ) (g : Grid) : Grid :=
  let old := g x y
  let np := quantize old
  let e := Int.tdiv (old - np) 8
  let g := g.set x y np
  let g := if x + 1 < w then g.set (x+1) y (g (x+1) y + clamp255 e) else g
  let g := if x + 2 < w then g.set (x+2) y (g (x+2) y + clamp255 e) else g
  let g := if x > 0 ∧ y + 1 < h then g.set (x-1) (y+1) (g (x-1) (y+1) + clamp255 e) else g
  let g := if y + 1 < h then g.set x (y+1) (g x (y+1) + clamp255 e) else g
  let g := if x + 1 < w ∧ y + 1 < h then g.set (x+1) (y+1) (g (x+1) (y+1) + clamp255 e) else g
  let g := if y + 2 < h then g.set x (y+2) (g x (y+2) + clamp255 e) else g
  g

def ditherAtkinsonClaimG (w h : ℕ) (g : Grid) : Grid := rasterFold w h (atkStepClaim w h) g

def ditherAtkinsonClaim (rows : List (List ℤ)) : List (List ℤ) :=
  rowsOfGrid (imgWidth rows) rows.length
    (ditherAtkinsonClaimG (imgWidth rows) rows.length (gridOfRows rows))

def atkStepAmended (w h : ℕ) (x y : ℕ) (g : Grid) : Grid :=
  let old := g x y
  let np := quantize old
  let e := Int.fdiv (old - np) 8
  let g := g.set x y np
  let g := if x + 1 < w then g.set (x+1) y (clamp255 (g (x+1) y + e)) else g
  let g := if x + 2 < w then g.set (x+2) y (clamp255 (g (x+2) y + e)) else g
  let g := if x > 0 ∧ y + 1 < h then g.set (x-1) (y+1) (clamp255 (g (x-1) (y+1) + e)) else g
  let g := if y + 1 < h then g.set x (y+1) (clamp255 (g x (y+1) + e)) else g
  let g := if x + 1 < w ∧ y + 1 < h then g.set (x+1) (y+1) (clamp255 (g (x+1) (y+1) + e)) else g
  let g := if y + 2 < h then g.set x (y+2) (clamp255 (g x (y+2) + e)) else g
  g

def ditherAtkinsonAmendedG (w h : ℕ) (g : Grid) : Grid := rasterFold w h (atkStepAmended w h) g

/-! ## Album art cache, from `AlbumArtManager` (lines 132-234)

State: the last fetched URL, the decoded source image, and the
dictionary of dithered variants keyed by `f"{algorithm}_{size}"`
(embedded as the pair `(algorithm, size)` — the fixed algorithm names
make the string key and the pair interconvertible), plus the
process-lifetime settings.  Images are the list form.

Externals are parameterized: `fetch` stands for `requests.get(url)`
followed by `Image.open` (success yields the decoded image, or an HTTP
non-200 status, or a raised transport exception), and `resizeGray`
stands for the PIL `resize((size, size), LANCZOS)` + `convert('L')`
pipeline.  The dithering dispatch itself is the embedded code. -/

inductive DitherAlg
  | floyd
  | atkinson
  | ordered
deriving DecidableEq

/-- `AlbumArtManager._apply_dithering` (lines 236-243): string dispatch
with floyd as the default branch. -/
def apply_dithering (rows : List (List ℤ)) : DitherAlg → List (List ℤ)
  | .atkinson => dither_atkinson rows
  | .ordered => dither_ordered rows
  | .floyd => dither_floyd_steinberg rows

structure ArtState where
  cached_url : Option String
  cached_art : Option (List (List ℤ))
  cached_dithered : List ((DitherAlg × ℕ) × List (List ℤ))
  display_mode : String
  dither_algorithm : DitherAlg
  show_album_art : Bool
deriving DecidableEq

/-- `AlbumArtManager.__init__` defaults (lines 142-150). -/
def artInit : ArtState :=
  { cached_url := none, cached_art := none, cached_dithered := []
    display_mode := "thumbnail", dither_algorithm := .floyd, show_album_art := true }

inductive FetchResult
  | ok (img : List (List ℤ))
  | httpFail
  | transportFail
deriving DecidableEq

/-- `AlbumArtManager.get_dithered_art` (lines 172-234).  Returns the
optional dithered image, the successor state, and the number of network
fetches performed by the call (0 or 1).  The REQUESTS/PIL availability
guard of line 185 is environmental and taken as satisfied. -/
def get_dithered_art (resizeGray : List (List ℤ) → ℕ → List (List ℤ))
    (fetch : String → FetchResult) (s : ArtState) (url : String) (size : ℕ) :
    Option (List (List ℤ)) × ArtState × ℕ :=
  if url = "" then (none, s, 0)
  else if s.show_album_art = false then (none, s, 0)
  else
    let key := (s.dither_algorithm, size)
    if some url = s.cached_url ∧ (s.cached_dithered.lookup key).isSome then
      (s.cached_dithered.lookup key, s, 0)
    else
      let fetched : Option ArtState × ℕ :=
        if some url = s.cached_url then (some s, 0)
        else
          match fetch url with
          | .ok img =>
              (some { s with cached_art := some img, cached_url := some url,
                             cached_dithered := [] }, 1)
          | .httpFail => (none, 1)
          | .transportFail => (none, 1)
      match fetched with
      | (none, n) => (none, s, n)
      | (some s1, n) =>
        match s1.cached_art with
        | none => (none, s1, n)
        | some srcImg =>
          let art := resizeGray srcImg size
          let dithered := apply_dithering art s1.dither_algorithm
          (some dithered,
           { s1 with cached_dithered := (key, dithered) :: s1.cached_dithered }, n)

/-! ## Flight info line, from `DisplayRenderer._draw_flight` (lines 577-619)

Only the second info line matters to the claims: the list `info_parts`
joined with a bullet separator.  Fields absent from the closest-flight
record are `none`; `flight.get('typecode', '')` then Python string
truthiness means a part is appended only for a present non-empty
string, and `if altitude:` appends the flight level only for a present
non-zero number.  `int(altitude / 30.48)` is float division followed by
`int()` truncation; it is embedded as exact rational division and
truncation toward zero (the two agree at every input considered here,
the quotient being far from an integer boundary). -/

structure Flight where
  callsign : Option String := none
  icao24 : Option String := none
  distance : Option ℚ := none
  altitude : Option ℚ := none
  typecode : Option String := none
  registration : Option String := none
deriving DecidableEq

/-- `f"FL{int(altitude / 30.48):03d}"` (line 616): the digits are the
absolute value zero-padded on the left so that sign plus digits fill at
least 3 characters. -/
def pad3 (n : ℤ) : String :=
  let sign := if n < 0 then "-" else ""
  let digits := toString n.natAbs
  sign ++ String.mk (List.replicate (3 - sign.length - digits.length) '0') ++ digits

/-- `int(altitude / 30.48)`: with `altitude = num/den` in lowest terms
this is the truncation toward zero of `(100*num) / (3048*den)`, computed
directly on the numerator and denominator. -/
def flightLevelInt (altitude : ℚ) : ℤ :=
  Int.tdiv (100 * altitude.num) (3048 * (altitude.den : ℤ))

def flightLevelStr (altitude : ℚ) : String :=
  "FL" ++ pad3 (flightLevelInt altitude)

def typecodePart (f : Flight) : List String :=
  if f.typecode.getD "" ≠ "" then [f.typecode.getD ""] else []

def registrationPart (f : Flight) : List String :=
  if f.registration.getD "" ≠ "" then ["[" ++ f.registration.getD "" ++ "]"] else []

def altitudePart (f : Flight) : List String :=
  match f.altitude with
  | some a => if a ≠ 0 then [flightLevelStr a] else []
  | none => []

/-- `info_parts` built in source order (lines 608-616). -/
def infoParts (f : Flight) : List String :=
  typecodePart f ++ registrationPart f ++ altitudePart f

/-- `' • '.join(info_parts)` (line 619). -/
def infoLine (f : Flight) : String :=
  String.intercalate " • " (infoParts f)

/-- Substring test used to state "the rendered info line includes ...". -/
def charsLead : List Char → List Char → Bool
  | [], _ => true
  | _ :: _, [] => false
  | a :: as, b :: bs => a == b && charsLead as bs

def charsHas (needle : List Char) : List Char → Bool
  | [] => needle.isEmpty
  | c :: t => charsLead needle (c :: t) || charsHas needle t

def strHas (hay needle : String) : Bool := charsHas needle.toList hay.toList

/-! ## Refresh scheduler, from `DisplayRenderer` (lines 466-856)

State fields from `__init__` (lines 475-478).  Wall-clock time
(`time.time()`) is a rational number of seconds; the wall-clock minute
(`datetime.now().minute`) an integer.  The sink is either a physical
display whose driver has the `display_Partial` method, a physical
display without it (the `AttributeError` fallback path), or absent
(simulation mode, `self.epd is None`): pushes are observable events. -/

structure RendererState where
  last_full_refresh : ℚ
  current_minute : ℤ
  current_flight : Option Flight
  music_mode_active : Bool
deriving DecidableEq

/-- `DisplayRenderer.__init__` (lines 475-478): `last_full_refresh = 0`,
`current_minute = -1`, `current_flight = None`, `music_mode_active = False`. -/
def rendererInit : RendererState :=
  { last_full_refresh := 0, current_minute := -1
    current_flight := none, music_mode_active := false }

inductive Sink
  | epdWithPart
  | epdNoPart
  | absent
deriving DecidableEq

inductive PushEvent
  | fullDisplay
  | partDisplay
  | previewSave
deriving DecidableEq

inductive RegionName
  | clock
  | date
  | weather
  | flight
  | now_playing
  | status
  | music_mode
  | clock_mini
  | full
deriving DecidableEq

/-- `FULL_REFRESH_INTERVAL = 21600` (line 70). -/
def FULL_REFRESH_INTERVAL : ℚ := 21600

/-- `DisplayRenderer.render_full` (lines 755-800), timing and state
aspects.  With a physical sink the buffer is pushed via
`epd.display(...)` and `last_full_refresh = time.time()` is set; in
simulation mode the buffer is saved to `epaper_preview.png` and
`last_full_refresh` is *not* touched.  `current_minute` and
`current_flight` are set on both paths (lines 799-800). -/
def render_full (s : RendererState) (sink : Sink) (now : ℚ) (nowMinute : ℤ)
    (flight : Option Flight) : RendererState × PushEvent :=
  match sink with
  | .absent =>
      ({ s with current_minute := nowMinute, current_flight := flight },
       .previewSave)
  | _ =>
      ({ s with last_full_refresh := now, current_minute := nowMinute,
                current_flight := flight },
       .fullDisplay)

/-- `DisplayRenderer.needs_full_refresh` (lines 854-856):
`time.time() - self.last_full_refresh > FULL_REFRESH_INTERVAL`. -/
def needs_full_refresh (s : RendererState) (now : ℚ) : Bool :=
  now - s.last_full_refresh > FULL_REFRESH_INTERVAL

/-- The sink push requested by both partial-update operations: try
`epd.display_Partial`, fall back to `epd.display` on `AttributeError`,
or save the preview file when the sink is absent (lines 814-824 and
843-850). -/
def partPush : Sink → PushEvent
  | .epdWithPart => .partDisplay
  | .epdNoPart => .fullDisplay
  | .absent => .previewSave

/-- `DisplayRenderer.partial_update_clock` (lines 802-826), renamed here
to avoid clashing with a Lean keyword.  Returns the successor state, the
push performed (if any), and the regions redrawn. -/
def clock_region_update (s : RendererState) (sink : Sink) (nowMinute : ℤ) :
    RendererState × Option PushEvent × List RegionName :=
  if nowMinute = s.current_minute then (s, none, [])
  else
    ({ s with current_minute := nowMinute }, some (partPush sink),
     [.clock, .date])

/-- A run of the clock updater over successive wall-clock minute
observations, counting sink pushes. -/
def clockRunPushes (sink : Sink) : RendererState → List ℤ → ℕ
  | _, [] => 0
  | s, m :: ms =>
      let r := clock_region_update s sink m
      (if r.2.1.isSome then 1 else 0) + clockRunPushes sink r.1 ms

/-- Number of minute-boundary crossings visible in a trace of minute
observations starting from a held minute. -/
def minuteChanges : ℤ → List ℤ → ℕ
  | _, [] => 0
  | m, m' :: ms => (if m' = m then 0 else 1) + minuteChanges m' ms

/-- The special-alerts record `{military: [...], emergency: [...],
vip: [...]}` produced by `DataFetcher.get_special_alerts` (lines
402-406); on any fetch failure the default with three empty lists is
returned.  The argument of `partial_update_flight` is either this
record or Python `None` (the parameter default). -/
structure AlertsRec where
  military : List String
  emergency : List String
  vip : List String
deriving DecidableEq

/-- Python truthiness of the `special_alerts` argument: `None` is falsy;
a dict carrying the three keys is a non-empty dict, hence truthy even
when all three lists are empty. -/
def alertsTruthy : Option AlertsRec → Bool
  | none => false
  | some _ => true

/-- `DisplayRenderer.partial_update_flight` (lines 828-852), renamed as
above.  No-op exactly when the callsign is unchanged *and* the
`special_alerts` argument is falsy (line 837: `if new_callsign ==
old_callsign and not special_alerts`); otherwise redraw flight+status,
push with the fallback rule, and set `current_flight` (line 852). -/
def flight_region_update (s : RendererState) (sink : Sink)
    (flight : Option Flight) (special_alerts : Option AlertsRec) :
    RendererState × Option PushEvent × List RegionName :=
  let newCallsign := flight.bind Flight.callsign
  let oldCallsign := s.current_flight.bind Flight.callsign
  if newCallsign = oldCallsign ∧ alertsTruthy special_alerts = false then
    (s, none, [])
  else
    ({ s with current_flight := flight }, some (partPush sink),
     [.flight, .status])

/-! ## Concrete fixtures used by counterexamples and witnesses -/

/-- The example flight of the spec: callsign QFA12, distance 12.3,
altitude 10972, typecode B738. -/
def exFlightC2 : Flight :=
  { callsign := some "QFA12", distance := some (123/10),
    altitude := some 10972, typecode := some "B738" }

/-- A concrete stand-in for the PIL resize+grayscale pipeline. -/
def wResize : List (List ℤ) → ℕ → List (List ℤ) := fun rows _ => rows

/-- A fetch oracle that succeeds with a one-pixel image per URL. -/
def wFetch : String → FetchResult := fun url =>
  if url = "b" then .ok [[200]] else .ok [[100]]

/-- A fetch oracle whose every request fails with a non-200 status. -/
def wFetchFail : String → FetchResult := fun _ => .httpFail

/-- A current-flight snapshot holding the example flight. -/
def sExC9 : RendererState := { rendererInit with current_flight := some exFlightC2 }

/-- The all-empty special-alerts record returned by
`get_special_alerts` when the server reports no alerts (or the fetch
fails). -/
def emptyAlerts : AlertsRec := { military := [], emergency := [], vip := [] }

/-- A uniform mid-gray grid used to witness the Atkinson redistribution
accounting. -/
def wGrid60 : Grid := fun _ _ => 60

/-! # Helper lemmas -/

theorem clamp255_eq_self {v : ℤ} (h0 : 0 ≤ v) (h255 : v ≤ 255) : clamp255 v = v := by
  simp only [clamp255]
  omega

theorem Grid.set_get (g : Grid) (x y : ℕ) (v : ℤ) (a b : ℕ) :
    g.set x y v a b = if a = x ∧ b = y then v else g a b := rfl

/-- The Floyd-Steinberg per-pixel step of the source equals the amended
claim formulation (flat kernel enumeration, sum truncated then clamped). -/
theorem fsStep_eq_amended (w h x y : ℕ) (g : Grid) :
    fsStep w h x y g = fsStepAmended w h x y g := by
  by_cases h1 : x + 1 < w <;> by_cases h2 : y + 1 < h <;> by_cases h3 : x > 0 <;>
    simp [fsStep, fsStepAmended, h1, h2, h3]

/-- The Atkinson per-pixel step of the source equals the amended claim
formulation (flat kernel enumeration, floor-divided error, sums clamped). -/
theorem atkStep_eq_amended (w h x y : ℕ) (g : Grid) :
    atkStep w h x y g = atkStepAmended w h x y g := by
  by_cases h1 : x + 1 < w <;> by_cases h2 : x + 2 < w <;> by_cases h3 : y + 1 < h <;>
    by_cases h4 : x > 0 <;> by_cases h5 : y + 2 < h <;>
    simp [atkStep, atkStepAmended, h1, h2, h3, h4, h5]

/-- One raster row of ordered dithering, evaluated pointwise: only the
cells of row `y` with column below `w` are (re)thresholded; every other
cell is untouched, and each thresholded cell reads its original input. -/
theorem ord_row_get (w : ℕ) (y : ℕ) (g : Grid) (a b : ℕ) :
    ((List.range w).foldl (fun g x => ordStep x y g) g) a b =
      if a < w ∧ b = y then
        (if g a b > bayerThreshold (b % 4) (a % 4) then 255 else 0)
      else g a b := by
  induction w generalizing a b with
  | zero => simp
  | succ w ih =>
    rw [List.range_succ, List.foldl_append]
    simp only [List.foldl_cons, List.foldl_nil]
    rw [ordStep, Grid.set_get, ih, ih]
    by_cases ha : a = w
    · by_cases hb : b = y
      · subst ha; subst hb
        simp [lt_irrefl, Nat.lt_succ_self]
      · simp [ha, hb]
    · by_cases hb : b = y
      · subst hb
        by_cases haw : a < w
        · simp only [ha, and_true, haw, if_true, true_and, and_false, if_false]
          simp [haw, Nat.lt_succ_of_lt haw]
        · have : ¬ a < w + 1 := by omega
          simp [ha, haw, this]
      · simp [ha, hb]

/-- Full ordered dithering, evaluated pointwise. -/
theorem ditherOrderedG_get (w h : ℕ) (g : Grid) (a b : ℕ) :
    ditherOrderedG w h g a b =
      if a < w ∧ b < h then
        (if g a b > bayerThreshold (b % 4) (a % 4) then 255 else 0)
      else g a b := by
  unfold ditherOrderedG rasterFold
  induction h generalizing a b with
  | zero => simp
  | succ h ih =>
    rw [List.range_succ, List.foldl_append]
    simp only [List.foldl_cons, List.foldl_nil]
    rw [ord_row_get]
    by_cases hb : b = h
    · subst hb
      by_cases haw : a < w
      · simp only [haw, true_and, if_true]
        rw [ih]
        simp [lt_irrefl, Nat.lt_succ_self, haw]
      · simp only [haw, false_and, if_false]
        rw [ih]
        simp [haw]
    · rw [ih]
      by_cases hbh : b < h
      · simp [hbh, Nat.lt_succ_of_lt hbh, hb]
      · have : ¬ b < h + 1 := by omega
        simp [hbh, this, hb]

/-! # Claim theorems -/

/-- C3, counterexample.  The claim reads: each propagated value is
clamped to [0,255] *before* being added to the neighbor's current
intensity, with integer truncation of the propagated fractions.  On the
1x2 image [200, 140] the source code quantizes pixel 0 to 255
(error -55) and updates pixel 1 to int(140 - 55*7/16) = 115, which then
quantizes to 0; under the claim's literal reading the propagated value
trunc(-55*7/16) = -24 is clamped up to 0, leaving pixel 1 at 140, which
quantizes to 255.  The two disagree. -/
theorem floyd_claim_cex :
    dither_floyd_steinberg [[200, 140]] = [[255, 0]] ∧
    ditherFloydClaim [[200, 140]] = [[255, 255]] ∧
    dither_floyd_steinberg [[200, 140]] ≠ ditherFloydClaim [[200, 140]] := by
  refine ⟨by decide, by decide, by decide⟩

/-- C3, amended.  Floyd-Steinberg dithering processes pixels in
row-major left-to-right order; at each pixel it quantizes with
threshold 127 (value > 127 gives 255, else 0), computes the signed
error original - quantized, and propagates error*7/16 to the right
neighbor, *3/16 to the next-row left diagonal (skipped at the left
edge), *5/16 to the next-row same column, *1/16 to the next-row right
diagonal (skipped at the right edge); each neighbor is updated to its
current (possibly already-modified) intensity plus the propagated
fraction, the sum truncated toward zero (not rounded) and then clamped
to [0,255].  Formally: the source embedding coincides with the amended
kernel-enumeration formulation on every image. -/
theorem floyd_matches_amended_spec :
    ∀ (w h : ℕ) (g : Grid), ditherFloydG w h g = ditherFloydAmendedG w h g := by
  intro w h g
  have hstep : fsStep w h = fsStepAmended w h := by
    funext x y g
    exact fsStep_eq_amended w h x y g
  unfold ditherFloydG ditherFloydAmendedG
  rw [hstep]

/-- C4, counterexample.  The claim reads: error = (original - quantized)
integer-divided by 8 *discarding the remainder*, and that amount
(clamped to [0,255]) is added to each in-bounds target.  On the 1x2
image [254, 128] the source quantizes pixel 0 to 255 and computes
error = (-1) // 8 = -1 (Python floor division), so pixel 1 becomes
127 and quantizes to 0; under the claim's reading the error is
trunc(-1/8) = 0 (and clamping it to [0,255] also gives 0), leaving
pixel 1 at 128, which quantizes to 255.  The two disagree. -/
theorem atkinson_claim_cex :
    dither_atkinson [[254, 128]] = [[255, 0]] ∧
    ditherAtkinsonClaim [[254, 128]] = [[255, 255]] ∧
    dither_atkinson [[254, 128]] ≠ ditherAtkinsonClaim [[254, 128]] := by
  refine ⟨by decide, by decide, by decide⟩

/-- C4, amended.  (a) Atkinson dithering equals the amended
kernel-enumeration formulation: error = (original - quantized)
floor-divided by 8 (rounding toward minus infinity), each in-bounds
target among the six is updated to the clamp of (current intensity +
error), skipping out-of-bounds targets.  (b) At a pixel whose six
targets are all in bounds and where no clamping saturates, the total
redistributed equals 6 * ((original - quantized) floor-div 8), and when
the original error is non-negative this total is at most the original
error. -/
theorem atkinson_amended :
    (∀ (w h : ℕ) (g : Grid), ditherAtkinsonG w h g = ditherAtkinsonAmendedG w h g) ∧
    (∀ (w h x y : ℕ) (g : Grid),
      x > 0 → x + 2 < w → y + 2 < h →
      0 ≤ g (x+1) y + atkErr (g x y) → g (x+1) y + atkErr (g x y) ≤ 255 →
      0 ≤ g (x+2) y + atkErr (g x y) → g (x+2) y + atkErr (g x y) ≤ 255 →
      0 ≤ g (x-1) (y+1) + atkErr (g x y) → g (x-1) (y+1) + atkErr (g x y) ≤ 255 →
      0 ≤ g x (y+1) + atkErr (g x y) → g x (y+1) + atkErr (g x y) ≤ 255 →
      0 ≤ g (x+1) (y+1) + atkErr (g x y) → g (x+1) (y+1) + atkErr (g x y) ≤ 255 →
      0 ≤ g x (y+2) + atkErr (g x y) → g x (y+2) + atkErr (g x y) ≤ 255 →
      ((atkStep w h x y g (x+1) y - g (x+1) y) +
       (atkStep w h x y g (x+2) y - g (x+2) y) +
       (atkStep w h x y g (x-1) (y+1) - g (x-1) (y+1)) +
       (atkStep w h x y g x (y+1) - g x (y+1)) +
       (atkStep w h x y g (x+1) (y+1) - g (x+1) (y+1)) +
       (atkStep w h x y g x (y+2) - g x (y+2)))
        = 6 * atkErr (g x y) ∧
      (0 ≤ g x y - quantize (g x y) →
        6 * atkErr (g x y) ≤ g x y - quantize (g x y))) := by
  constructor
  · intro w h g
    have hstep : atkStep w h = atkStepAmended w h := by
      funext x y g
      exact atkStep_eq_amended w h x y g
    unfold ditherAtkinsonG ditherAtkinsonAmendedG
    rw [hstep]
  · intro w h x y g hx0 hx2 hy2 hb1a hb1b hb2a hb2b hb3a hb3b hb4a hb4b hb5a hb5b hb6a hb6b
    have h1 : x + 1 < w := by omega
    have h3 : y + 1 < h := by omega
    simp only [atkErr] at hb1a hb1b hb2a hb2b hb3a hb3b hb4a hb4b hb5a hb5b hb6a hb6b
    constructor
    · have a1 : x + 1 ≠ x := by omega
      have a2 : x + 2 ≠ x := by omega
      have a3 : x + 2 ≠ x + 1 := by omega
      have a4 : x - 1 ≠ x := by omega
      have a5 : x ≠ x - 1 := by omega
      have a6 : x - 1 ≠ x + 1 := by omega
      have a7 : x + 1 ≠ x - 1 := by omega
      have a8 : x - 1 ≠ x + 2 := by omega
      have a9 : x + 1 ≠ x + 2 := by omega
      have a10 : x ≠ x + 1 := by omega
      have a11 : x ≠ x + 2 := by omega
      have a12 : x + 2 ≠ x - 1 := by omega
      have b1 : y + 1 ≠ y := by omega
      have b2 : y ≠ y + 1 := by omega
      have b3 : y + 2 ≠ y := by omega
      have b4 : y + 2 ≠ y + 1 := by omega
      have b5 : y ≠ y + 2 := by omega
      have b6 : y + 1 ≠ y + 2 := by omega
      simp only [atkErr, atkStep, hx0, h1, hx2, h3, hy2, if_true, Grid.set_get]
      simp only [a1, a2, a3, a4, a5, a6, a7, a8, a9, a10, a11, a12,
                 b1, b2, b3, b4, b5, b6, and_true, true_and, and_false, false_and,
                 if_true, if_false, and_self, if_pos, ite_true, ite_false,
                 eq_self_iff_true, not_false_iff]
      rw [clamp255_eq_self hb1a hb1b, clamp255_eq_self hb2a hb2b,
          clamp255_eq_self hb3a hb3b, clamp255_eq_self hb4a hb4b,
          clamp255_eq_self hb5a hb5b, clamp255_eq_self hb6a hb6b]
      ring
    · intro hE
      simp only [atkErr]
      rw [Int.fdiv_eq_ediv _ (by norm_num)]
      omega

/-- C4, witness for the amended theorem: a 4x3 image constant 60 except
value 100 nowhere relevant; at pixel (1,0) the intensity 60 quantizes to
0 with error 60, floor-div 8 gives 7, all six targets are interior and
unsaturated, and the redistribution sums to 42 = 6*7 which is at most 60. -/
theorem atkinson_amended_witness :
    ((atkStep 4 3 1 0 wGrid60 2 0 - wGrid60 2 0) +
     (atkStep 4 3 1 0 wGrid60 3 0 - wGrid60 3 0) +
     (atkStep 4 3 1 0 wGrid60 0 1 - wGrid60 0 1) +
     (atkStep 4 3 1 0 wGrid60 1 1 - wGrid60 1 1) +
     (atkStep 4 3 1 0 wGrid60 2 1 - wGrid60 2 1) +
     (atkStep 4 3 1 0 wGrid60 1 2 - wGrid60 1 2))
      = 6 * atkErr (wGrid60 1 0) ∧
    6 * atkErr (wGrid60 1 0) ≤ wGrid60 1 0 - quantize (wGrid60 1 0) := by
  have h := atkinson_amended.2 4 3 1 0 wGrid60 (by decide) (by decide) (by decide)
    (by decide) (by decide) (by decide) (by decide) (by decide) (by decide)
    (by decide) (by decide) (by decide) (by decide) (by decide) (by decide)
  exact ⟨h.1, h.2 (by decide)⟩

/-- C5.  Ordered (Bayer) dithering is a pure per-pixel function:
(a) for every in-bounds pixel, output = 255 iff input exceeds the
threshold at (y mod 4, x mod 4) of the matrix derived from the fixed
Bayer index matrix; (b) those thresholds are exactly
(index+1)/17 * 255; (c) hence the output pixel depends only on the
input pixel value and (x mod 4, y mod 4). -/
theorem ordered_pointwise :
    (∀ (w h : ℕ) (g : Grid) (x y : ℕ), x < w → y < h →
      ditherOrderedG w h g x y =
        if g x y > bayerThreshold (y % 4) (x % 4) then 255 else 0) ∧
    (∀ r c : Fin 4,
      (bayerThreshold r c : ℚ) =
        (((BAYER_MATRIX_4x4.getD r []).getD c 0 : ℚ) + 1) / 17 * 255) ∧
    (∀ (w h w' h' : ℕ) (g g' : Grid) (x y x' y' : ℕ),
      x < w → y < h → x' < w' → y' < h' →
      g x y = g' x' y' → x % 4 = x' % 4 → y % 4 = y' % 4 →
      ditherOrderedG w h g x y = ditherOrderedG w' h' g' x' y') := by
  refine ⟨?_, ?_, ?_⟩
  · intro w h g x y hx hy
    rw [ditherOrderedG_get]
    simp [hx, hy]
  · intro r c
    fin_cases r <;> fin_cases c <;>
      norm_num [bayerThreshold, BAYER_MATRIX_4x4]
  · intro w h w' h' g g' x y x' y' hx hy hx' hy' hg hxm hym
    rw [ditherOrderedG_get, ditherOrderedG_get]
    simp [hx, hy, hx', hy', hg, hxm, hym]

/-- C5, witness at a concrete image and pixel: on the 2x2 image
[[16, 15], [200, 74]] the pixel (0,0) thresholds against 15 and gives
255. -/
theorem ordered_pointwise_witness :
    ditherOrderedG 2 2 (gridOfRows [[16, 15], [200, 74]]) 0 0 =
      (if gridOfRows [[16, 15], [200, 74]] 0 0 >
          bayerThreshold (0 % 4) (0 % 4) then 255 else 0) ∧
    ditherOrderedG 2 2 (gridOfRows [[16, 15], [200, 74]]) 0 0 = 255 := by
  have h := ordered_pointwise.1 2 2 (gridOfRows [[16, 15], [200, 74]]) 0 0
    (by decide) (by decide)
  exact ⟨h, by rw [h]; decide⟩

/-- C1, counterexample.  The claim asserts that needs_full_refresh() is
false immediately after render_full() both with the physical sink
present and in simulation mode.  In simulation mode (sink absent)
render_full saves the preview but does not touch last_full_refresh
(lines 789-797 set it only on the epd branch), so from the initial
state (last_full_refresh = 0) a render_full at time 30000 leaves
needs_full_refresh true at that same instant. -/
theorem renderFull_sim_cex :
    (render_full rendererInit .absent 30000 0 none).2 = .previewSave ∧
    needs_full_refresh (render_full rendererInit .absent 30000 0 none).1 30000 = true := by
  constructor
  · rfl
  · simp only [render_full, needs_full_refresh, rendererInit, FULL_REFRESH_INTERVAL,
               decide_eq_true_eq]
    norm_num

/-- C1, amended.  When the physical sink is present, needs_full_refresh
is false immediately after render_full returns and becomes true once
more than the anti-ghosting interval has elapsed since that call.  When
the sink is absent (simulation mode), the push is instead serialized to
the preview artifact, but last_full_refresh is left unchanged, so
needs_full_refresh is unaffected by the call. -/
theorem renderFull_antighost_amended :
    (∀ (s : RendererState) (sink : Sink) (now : ℚ) (m : ℤ) (fl : Option Flight),
      sink ≠ .absent →
      (render_full s sink now m fl).2 = .fullDisplay ∧
      needs_full_refresh (render_full s sink now m fl).1 now = false ∧
      (∀ t : ℚ, t - now > FULL_REFRESH_INTERVAL →
        needs_full_refresh (render_full s sink now m fl).1 t = true)) ∧
    (∀ (s : RendererState) (now : ℚ) (m : ℤ) (fl : Option Flight),
      (render_full s .absent now m fl).2 = .previewSave ∧
      (render_full s .absent now m fl).1.last_full_refresh = s.last_full_refresh ∧
      (∀ t : ℚ, needs_full_refresh (render_full s .absent now m fl).1 t =
        needs_full_refresh s t)) := by
  constructor
  · intro s sink now m fl hsink
    cases sink with
    | absent => exact absurd rfl hsink
    | epdWithPart =>
      refine ⟨rfl, ?_, ?_⟩
      · simp [render_full, needs_full_refresh, FULL_REFRESH_INTERVAL]
      · intro t ht
        simp only [render_full, needs_full_refresh, decide_eq_true_eq]
        exact ht
    | epdNoPart =>
      refine ⟨rfl, ?_, ?_⟩
      · simp [render_full, needs_full_refresh, FULL_REFRESH_INTERVAL]
      · intro t ht
        simp only [render_full, needs_full_refresh, decide_eq_true_eq]
        exact ht
  · intro s now m fl
    exact ⟨rfl, rfl, fun t => rfl⟩

/-- C1, witness: with the sink present, a render_full at time 100 makes
needs_full_refresh false at time 100 and true at time 30000. -/
theorem renderFull_antighost_witness :
    needs_full_refresh (render_full rendererInit .epdWithPart 100 0 none).1 100 = false ∧
    needs_full_refresh (render_full rendererInit .epdWithPart 100 0 none).1 30000 = true := by
  have h := renderFull_antighost_amended.1 rendererInit .epdWithPart 100 0 none
    (by simp)
  refine ⟨h.2.1, h.2.2 30000 ?_⟩
  norm_num [FULL_REFRESH_INTERVAL]

/-- C2, counterexample.  The claim computes the flight level with
round(altitude / 30.48) and asserts the example line includes FL360.
The source uses int(altitude / 30.48) (truncation toward zero, line
616): 10972 / 30.48 = 359.97..., so the rendered line is
"B738 • FL359" and does not include "FL360". -/
theorem flightLevel_round_cex :
    infoLine exFlightC2 = "B738 • FL359" ∧
    strHas (infoLine exFlightC2) "FL360" = false := by
  exact ⟨by decide, by decide⟩

/-- C2, amended.  For every present flight with a present *non-zero*
altitude, the info line contains the flight-level part computed as the
truncation toward zero of altitude / 30.48 (for non-negative altitude
this is the floor, bounded by the exact quotient as stated below),
zero-padded to 3 digits; in particular the example flight renders an
info line including "B738" and "FL359". -/
theorem flightLevel_trunc_amended :
    (∀ (f : Flight) (a : ℚ), f.altitude = some a → a ≠ 0 →
      flightLevelStr a ∈ infoParts f) ∧
    (∀ a : ℚ, 0 ≤ a →
      (flightLevelInt a : ℚ) ≤ a / (3048 / 100) ∧
      a / (3048 / 100) < flightLevelInt a + 1) ∧
    strHas (infoLine exFlightC2) "B738" = true ∧
    strHas (infoLine exFlightC2) "FL359" = true := by
  refine ⟨?_, ?_, by decide, by decide⟩
  · intro f a hf ha
    simp [infoParts, altitudePart, hf, ha, typecodePart, registrationPart]
  · intro a ha
    have hd : (0 : ℤ) < (a.den : ℤ) := by exact_mod_cast a.pos
    have hn : 0 ≤ a.num := Rat.num_nonneg.mpr ha
    have hD : (0 : ℤ) < 3048 * (a.den : ℤ) := by positivity
    have htd : flightLevelInt a = (100 * a.num) / (3048 * (a.den : ℤ)) := by
      unfold flightLevelInt
      exact Int.tdiv_eq_ediv (by positivity) (le_of_lt hD)
    have hmod := Int.ediv_add_emod (100 * a.num) (3048 * (a.den : ℤ))
    have hm0 := Int.emod_nonneg (100 * a.num) (ne_of_gt hD)
    have hm1 := Int.emod_lt_of_pos (100 * a.num) hD
    have hDq : (0 : ℚ) < ((3048 * (a.den : ℤ) : ℤ) : ℚ) := by exact_mod_cast hD
    have hmd : a * ((a.den : ℤ) : ℚ) = ((a.num : ℤ) : ℚ) := by
      push_cast
      rw [mul_comm]
      rw [Rat.den_mul_eq_num]
    have hkey : a / (3048 / 100) = ((100 * a.num : ℤ) : ℚ) / ((3048 * (a.den : ℤ) : ℤ) : ℚ) := by
      rw [div_eq_div_iff (by norm_num) (ne_of_gt hDq)]
      push_cast
      push_cast at hmd
      linear_combination (3048 : ℚ) * hmd
    constructor
    · rw [hkey, htd, le_div_iff₀ hDq]
      have hz : (100 * a.num) / (3048 * (a.den : ℤ)) * (3048 * (a.den : ℤ)) ≤
          100 * a.num := by
        nlinarith [hmod, hm0]
      exact_mod_cast hz
    · rw [hkey, htd, div_lt_iff₀ hDq]
      have hz : 100 * a.num <
          ((100 * a.num) / (3048 * (a.den : ℤ)) + 1) * (3048 * (a.den : ℤ)) := by
        nlinarith [hmod, hm1]
      exact_mod_cast hz

/-- C2, witness: the amended flight-level membership and bounds at the
example flight (altitude 10972, level 359). -/
theorem flightLevel_trunc_witness :
    flightLevelStr 10972 ∈ infoParts exFlightC2 ∧
    (flightLevelInt 10972 : ℚ) ≤ 10972 / (3048 / 100) := by
  refine ⟨flightLevel_trunc_amended.1 exFlightC2 10972 rfl (by decide), ?_⟩
  exact (flightLevel_trunc_amended.2.1 10972 (by norm_num)).1

/-- C10.  A present altitude equal to 0 is falsy in Python
(`if altitude:` at line 615), so the flight-level part is omitted
exactly as if the field were missing, and a flight-level entry is
produced precisely for a present non-zero altitude. -/
theorem altitude_zero_omitted :
    (∀ f : Flight, f.altitude = some 0 →
      altitudePart f = [] ∧ infoParts f = infoParts { f with altitude := none }) ∧
    (∀ f : Flight, altitudePart f ≠ [] ↔ ∃ a : ℚ, f.altitude = some a ∧ a ≠ 0) := by
  constructor
  · intro f hf
    constructor
    · simp [altitudePart, hf]
    · simp [infoParts, typecodePart, registrationPart, altitudePart, hf]
  · intro f
    cases hf : f.altitude with
    | none => simp [altitudePart, hf]
    | some a =>
      by_cases ha : a = 0
      · subst ha
        simp [altitudePart, hf]
      · simp [altitudePart, hf, ha]

/-- C10, witness: with altitude 0 the example flight's info parts drop
the flight level and coincide with the altitude-less flight, and the
unmodified example flight (altitude 10972) does produce a flight-level
entry. -/
theorem altitude_zero_omitted_witness :
    altitudePart { exFlightC2 with altitude := some 0 } = [] ∧
    infoParts { exFlightC2 with altitude := some 0 } =
      infoParts { exFlightC2 with altitude := none } ∧
    altitudePart exFlightC2 ≠ [] := by
  have h1 := altitude_zero_omitted.1 { exFlightC2 with altitude := some 0 } rfl
  have h2 := (altitude_zero_omitted.2 exFlightC2).mpr ⟨10972, rfl, by decide⟩
  exact ⟨h1.1, h1.2, h2⟩

/-- C6.  Starting from any state whose cached URL differs from a
non-empty `url`, with art enabled and the fetch succeeding: the first
get_dithered_art call performs exactly one fetch, computes and stores
the dithered variant under the (algorithm, size) key; the second call
with the same URL, algorithm and size performs no fetch and returns the
stored variant with the state unchanged; and a later call with a
different URL (fetch succeeding) clears all previously cached variants
— a lookup of any stale (algorithm, size) key misses — and a
subsequent call under the stale key recomputes from the new source
image without fetching. -/
theorem art_cache_behavior :
    ∀ (rg : List (List ℤ) → ℕ → List (List ℤ)) (fetch : String → FetchResult)
      (s : ArtState) (url : String) (size : ℕ) (img : List (List ℤ)),
      url ≠ "" → s.show_album_art = true → s.cached_url ≠ some url →
      fetch url = .ok img →
      (get_dithered_art rg fetch s url size).2.2 = 1 ∧
      (get_dithered_art rg fetch s url size).1 =
        some (apply_dithering (rg img size) s.dither_algorithm) ∧
      (get_dithered_art rg fetch s url size).2.1.cached_url = some url ∧
      (get_dithered_art rg fetch s url size).2.1.cached_dithered =
        [((s.dither_algorithm, size), apply_dithering (rg img size) s.dither_algorithm)] ∧
      get_dithered_art rg fetch (get_dithered_art rg fetch s url size).2.1 url size =
        (some (apply_dithering (rg img size) s.dither_algorithm),
         (get_dithered_art rg fetch s url size).2.1, 0) ∧
      (∀ (url2 : String) (img2 : List (List ℤ)) (size2 : ℕ),
        url2 ≠ "" → url2 ≠ url → fetch url2 = .ok img2 →
        (get_dithered_art rg fetch
            (get_dithered_art rg fetch s url size).2.1 url2 size2).2.2 = 1 ∧
        (get_dithered_art rg fetch
            (get_dithered_art rg fetch s url size).2.1 url2 size2).1 =
          some (apply_dithering (rg img2 size2) s.dither_algorithm) ∧
        (get_dithered_art rg fetch
            (get_dithered_art rg fetch s url size).2.1 url2 size2).2.1.cached_dithered =
          [((s.dither_algorithm, size2), apply_dithering (rg img2 size2) s.dither_algorithm)] ∧
        (∀ k : DitherAlg × ℕ, k ≠ (s.dither_algorithm, size2) →
          ((get_dithered_art rg fetch
              (get_dithered_art rg fetch s url size).2.1 url2 size2).2.1.cached_dithered).lookup
              k = none) ∧
        (size ≠ size2 →
          (get_dithered_art rg fetch
              (get_dithered_art rg fetch
                (get_dithered_art rg fetch s url size).2.1 url2 size2).2.1 url2 size).2.2 = 0 ∧
          (get_dithered_art rg fetch
              (get_dithered_art rg fetch
                (get_dithered_art rg fetch s url size).2.1 url2 size2).2.1 url2 size).1 =
            some (apply_dithering (rg img2 size) s.dither_algorithm))) := by
  intro rg fetch s url size img hu hs hc hf
  have hc' : ¬ some url = s.cached_url := fun h => hc h.symm
  have e1 : get_dithered_art rg fetch s url size =
      (some (apply_dithering (rg img size) s.dither_algorithm),
       { s with cached_art := some img, cached_url := some url,
                cached_dithered := [((s.dither_algorithm, size),
                  apply_dithering (rg img size) s.dither_algorithm)] }, 1) := by
    simp [get_dithered_art, hu, hs, hc', hf]
  have e2 : get_dithered_art rg fetch (get_dithered_art rg fetch s url size).2.1 url size =
      (some (apply_dithering (rg img size) s.dither_algorithm),
       (get_dithered_art rg fetch s url size).2.1, 0) := by
    rw [e1]
    simp [get_dithered_art, hu, hs, List.lookup]
  refine ⟨by rw [e1], by rw [e1], by rw [e1], by rw [e1], e2, ?_⟩
  intro url2 img2 size2 hu2 hne hf2
  have hne' : ¬ some url2 = some url := by simp [hne]
  have e3 : get_dithered_art rg fetch (get_dithered_art rg fetch s url size).2.1 url2 size2 =
      (some (apply_dithering (rg img2 size2) s.dither_algorithm),
       { s with cached_art := some img2, cached_url := some url2,
                cached_dithered := [((s.dither_algorithm, size2),
                  apply_dithering (rg img2 size2) s.dither_algorithm)] }, 1) := by
    rw [e1]
    simp [get_dithered_art, hu2, hs, hne', hf2]
  refine ⟨by rw [e3], by rw [e3], by rw [e3], ?_, ?_⟩
  · intro k hk
    have hkb : (k == (s.dither_algorithm, size2)) = false := beq_eq_false_iff_ne.mpr hk
    rw [e3]
    simp [List.lookup, hkb]
  · intro hss
    have hkey : ((s.dither_algorithm, size) == (s.dither_algorithm, size2)) = false := by
      apply beq_eq_false_iff_ne.mpr
      simp [hss]
    rw [e3]
    simp [get_dithered_art, hu2, hs, List.lookup, hkey]

/-- C6, witness: from the initial cache state, fetching URL "a" at size
1 fetches once; repeating returns the cached variant with no fetch;
switching to URL "b" at size 2 leaves only the new key cached, and the
stale size-1 lookup under URL "b" recomputes without fetching. -/
theorem art_cache_behavior_witness :
    (get_dithered_art wResize wFetch artInit "a" 1).2.2 = 1 ∧
    get_dithered_art wResize wFetch (get_dithered_art wResize wFetch artInit "a" 1).2.1 "a" 1 =
      (some (apply_dithering (wResize [[100]] 1) artInit.dither_algorithm),
       (get_dithered_art wResize wFetch artInit "a" 1).2.1, 0) ∧
    (get_dithered_art wResize wFetch
        (get_dithered_art wResize wFetch
          (get_dithered_art wResize wFetch artInit "a" 1).2.1 "b" 2).2.1 "b" 1).2.2 = 0 := by
  have h := art_cache_behavior wResize wFetch artInit "a" 1 [[100]]
    (by decide) (by decide) (by decide) (by decide)
  have h6 := h.2.2.2.2.2 "b" [[200]] 2 (by decide) (by decide) (by decide)
  exact ⟨h.1, h.2.2.2.2.1, (h6.2.2.2.2 (by decide)).1⟩

/-- C7.  get_dithered_art returns absent with no network access when
the URL is empty or album art is disabled in settings; and when the URL
differs from the cached URL and the single fetch fails (non-200 status
or transport exception), it returns absent after that one fetch and
leaves the whole cached state unchanged, so a retry with the same URL
is possible. -/
theorem art_cache_absent_cases :
    (∀ (rg : List (List ℤ) → ℕ → List (List ℤ)) (fetch : String → FetchResult)
       (s : ArtState) (size : ℕ),
      get_dithered_art rg fetch s "" size = (none, s, 0)) ∧
    (∀ (rg : List (List ℤ) → ℕ → List (List ℤ)) (fetch : String → FetchResult)
       (s : ArtState) (url : String) (size : ℕ),
      s.show_album_art = false →
      get_dithered_art rg fetch s url size = (none, s, 0)) ∧
    (∀ (rg : List (List ℤ) → ℕ → List (List ℤ)) (fetch : String → FetchResult)
       (s : ArtState) (url : String) (size : ℕ),
      url ≠ "" → s.show_album_art = true → s.cached_url ≠ some url →
      (fetch url = .httpFail ∨ fetch url = .transportFail) →
      get_dithered_art rg fetch s url size = (none, s, 1)) := by
  refine ⟨?_, ?_, ?_⟩
  · intro rg fetch s size
    simp [get_dithered_art]
  · intro rg fetch s url size hs
    by_cases hu : url = ""
    · subst hu
      simp [get_dithered_art]
    · simp [get_dithered_art, hu, hs]
  · intro rg fetch s url size hu hs hc hfail
    have hc' : ¬ some url = s.cached_url := fun h => hc h.symm
    rcases hfail with hfail | hfail <;>
      simp [get_dithered_art, hu, hs, hc', hfail]

/-- C7, witness: empty URL, disabled art, and a failing fetch on a new
URL each return absent with the expected fetch counts and untouched
state. -/
theorem art_cache_absent_witness :
    get_dithered_art wResize wFetch artInit "" 1 = (none, artInit, 0) ∧
    get_dithered_art wResize wFetch { artInit with show_album_art := false } "a" 1 =
      (none, { artInit with show_album_art := false }, 0) ∧
    get_dithered_art wResize wFetchFail artInit "a" 1 = (none, artInit, 1) := by
  refine ⟨art_cache_absent_cases.1 wResize wFetch artInit 1, ?_, ?_⟩
  · exact art_cache_absent_cases.2.1 wResize wFetch _ "a" 1 (by decide)
  · exact art_cache_absent_cases.2.2 wResize wFetchFail artInit "a" 1
      (by decide) (by decide) (by decide) (Or.inl (by decide))

/-- C8.  partial_update_clock (embedded as clock_region_update) is a
no-op — no redraw, no push — when the wall-clock minute equals the
stored current_minute; otherwise it redraws exactly the clock and date
regions, requests a partial push (full push when the sink lacks
partial-refresh support, preview save when the sink is absent), and
updates current_minute; over a run, the number of pushes equals the
number of minute boundaries crossed in the observation trace. -/
theorem clock_update_behavior :
    (∀ (s : RendererState) (sink : Sink) (m : ℤ), m = s.current_minute →
      clock_region_update s sink m = (s, none, [])) ∧
    (∀ (s : RendererState) (sink : Sink) (m : ℤ), m ≠ s.current_minute →
      clock_region_update s sink m =
        ({ s with current_minute := m }, some (partPush sink),
         [RegionName.clock, RegionName.date]) ∧
      partPush .epdWithPart = .partDisplay ∧
      partPush .epdNoPart = .fullDisplay ∧
      partPush .absent = .previewSave) ∧
    (∀ (sink : Sink) (s : RendererState) (ms : List ℤ),
      clockRunPushes sink s ms = minuteChanges s.current_minute ms) := by
  refine ⟨?_, ?_, ?_⟩
  · intro s sink m hm
    simp [clock_region_update, hm]
  · intro s sink m hm
    exact ⟨by simp [clock_region_update, hm], rfl, rfl, rfl⟩
  · intro sink s ms
    induction ms generalizing s with
    | nil => rfl
    | cons m ms ih =>
      by_cases hm : m = s.current_minute
      · simp [clockRunPushes, clock_region_update, minuteChanges, hm, ih]
      · simp [clockRunPushes, clock_region_update, minuteChanges, hm, ih]

/-- C8, witness: from the initial state (current_minute = -1) an
observation of minute -1 is a no-op, and the trace [0, 0, 1] pushes
exactly twice (the two boundary crossings). -/
theorem clock_update_behavior_witness :
    clock_region_update rendererInit .epdWithPart (-1) = (rendererInit, none, []) ∧
    clockRunPushes .epdNoPart rendererInit [0, 0, 1] = 2 := by
  refine ⟨clock_update_behavior.1 rendererInit .epdWithPart (-1) rfl, ?_⟩
  have h := clock_update_behavior.2.2 .epdNoPart rendererInit [0, 0, 1]
  rw [h]
  decide

/-- C9.  The code's no-op test (line 837) is
`new_callsign == old_callsign and not special_alerts`, where
`special_alerts` is the dict produced by get_special_alerts; a dict
with the three keys military/emergency/vip is truthy even when all
three lists are empty, so with an unchanged callsign and the all-empty
alerts record the code still redraws and requests a partial push —
whereas with `None` in place of the record it is a no-op.  The claim
(and the spec sentence "no alerts are present") describes a no-op for
the all-empty record; the code diverges there. -/
theorem flight_update_empty_alerts_pushes :
    flight_region_update sExC9 .epdWithPart (some exFlightC2) (some emptyAlerts) =
      ({ sExC9 with current_flight := some exFlightC2 },
       some .partDisplay, [RegionName.flight, RegionName.status]) ∧
    emptyAlerts.military = [] ∧ emptyAlerts.emergency = [] ∧ emptyAlerts.vip = [] ∧
    flight_region_update sExC9 .epdWithPart (some exFlightC2) none =
      (sExC9, none, []) := by
  refine ⟨rfl, rfl, rfl, rfl, rfl⟩
